import Mathlib

/-!
Verification of the lifeimprove repository: the goal-progress HTTP handler
(api/goals/[id]/progress.js) and the schedule screen client actions
(ScheduleScreen). The JavaScript source is shallowly embedded: request
handling becomes a pure function from a request and a database snapshot to a
response and an updated snapshot; client actions become pure functions from
screen state and a service result to the new state, the issued network
request, and the alerts shown.
-/

namespace LifeImprove

/-- A JavaScript value occurring in a JSON request body where the handler
expects a number: either an actual number or null. An absent field is
represented by Option.none at the use site (JS undefined). -/
inductive JsVal where
  | jnum (n : Int)
  | jnull
  deriving DecidableEq, Repr

/-- JS numeric coercion as performed by Math.max / Math.min on their
arguments: null coerces to 0. -/
def JsVal.toNum : JsVal → Int
  | .jnum n => n
  | .jnull => 0

/-- A Goal document as manipulated by the progress handler: Mongo id, owner
id, goal type (numeric, habit, milestone), currentValue and progress. -/
structure Goal where
  _id : String
  userId : String
  type : String
  currentValue : JsVal
  progress : Int
  deriving DecidableEq, Repr

/-- The request as seen by the handler: HTTP method, the path id from
req.query, the userId injected by the auth middleware, and the two body
fields destructured from req.body (none = field absent / undefined). -/
structure Req where
  method : String
  id : String
  userId : String
  currentValue : Option JsVal
  progress : Option JsVal
  deriving DecidableEq, Repr

/-- The JSON bodies the handler can produce. -/
inductive RespBody where
  | empty
  | errorMsg (error : String)
  | errorDetails (error details : String)
  | success (message : String) (goal : Goal)
  deriving DecidableEq, Repr

/-- An HTTP response: status code, response headers, JSON body. -/
structure Resp where
  status : Nat
  headers : List (String × String)
  body : RespBody
  deriving DecidableEq, Repr

/-- The CORS headers the handler sets on every response (res.setHeader
calls at the top of the handler). -/
def corsHeaders : List (String × String) :=
  [("Access-Control-Allow-Credentials", "true"),
   ("Access-Control-Allow-Origin", "*"),
   ("Access-Control-Allow-Methods", "GET,OPTIONS,PATCH,DELETE,POST,PUT"),
   ("Access-Control-Allow-Headers",
    "X-CSRF-Token, X-Requested-With, Accept, Accept-Version, Content-Length, Content-MD5, Content-Type, Date, X-Api-Version, Authorization")]

/-- Goal.findOne with filter on _id and userId: the first document matching
both the path id and the authenticated user id. -/
def findOne (db : List Goal) (id uid : String) : Option Goal :=
  db.find? (fun g => g._id == id && g.userId == uid)

/-- Math.min(Math.max(p, 0), 100). -/
def clampProgress (p : Int) : Int :=
  min (max p 0) 100

/-- The per-type field update the handler performs on the loaded goal before
saving: numeric/habit goals take a supplied currentValue, milestone goals
take a supplied progress clamped to [0,100] (null coerces to 0 inside
Math.max), any other type is untouched. Absent fields are skipped by the
undefined checks. -/
def updateGoalFields (goal : Goal) (currentValue progress : Option JsVal) : Goal :=
  if goal.type == "numeric" || goal.type == "habit" then
    match currentValue with
    | some v => { goal with currentValue := v }
    | none => goal
  else if goal.type == "milestone" then
    match progress with
    | some p => { goal with progress := clampProgress p.toNum }
    | none => goal
  else
    goal

/-- Modelled from the spec: the Goal model (models/Goal.js) is not among the
source files; per the handler comment, goal.save() automatically
recalculates progress for numeric and habit goals by an external,
unspecified formula, and the spec says this computation lives outside the
handler. The recalculation is therefore abstracted as a parameter recalc;
goals of any other type are persisted exactly as the handler left them. -/
def saveRecalc (recalc : Goal → Int) (g : Goal) : Goal :=
  if g.type == "numeric" || g.type == "habit" then
    { g with progress := recalc g }
  else
    g

/-- Persisting a saved document: the database row with the same _id is
replaced by the saved document. -/
def persist (db : List Goal) (g : Goal) : List Goal :=
  db.map (fun x => if x._id == g._id then g else x)

/-- The 200 success response returned after a save. -/
def mkSuccess (g : Goal) : Resp :=
  { status := 200, headers := corsHeaders,
    body := .success "Progress updated successfully" g }

/-- The goal-progress handler (api/goals/[id]/progress.js): sets CORS
headers, short-circuits OPTIONS with an empty 200, rejects non-PUT with 405,
loads the goal scoped to both the path id and the authenticated user id
(404 if none), applies the per-type field update, saves, and returns the
updated document. Returns the response together with the database after the
save. -/
def handler (recalc : Goal → Int) (db : List Goal) (req : Req) :
    Resp × List Goal :=
  if req.method == "OPTIONS" then
    ({ status := 200, headers := corsHeaders, body := .empty }, db)
  else if req.method != "PUT" then
    ({ status := 405, headers := corsHeaders, body := .errorMsg "Method not allowed" }, db)
  else
    match findOne db req.id req.userId with
    | none =>
      ({ status := 404, headers := corsHeaders, body := .errorMsg "Goal not found" }, db)
    | some goal =>
      let saved := saveRecalc recalc (updateGoalFields goal req.currentValue req.progress)
      (mkSuccess saved, persist db saved)

/-- The authentication state of a caller: a valid token for some user, an
invalid token, or no token at all. -/
inductive AuthState where
  | valid (uid : String)
  | invalidToken
  | absent
  deriving DecidableEq, Repr

/-- Modelled from the spec: lib/auth-middleware.js (verifyToken) is not
among the source files; the endpoint is module.exports = verifyToken(handler).
The spec says the middleware injects an authenticated userId onto the
request or short-circuits with an auth error, and that OPTIONS requests
always return empty 200 with CORS headers regardless of authentication
state; so OPTIONS requests are forwarded to the wrapped handler without
authentication, while any other request requires a valid token. -/
def verifyToken (wrapped : List Goal → Req → Resp × List Goal)
    (db : List Goal) (auth : AuthState) (method id : String)
    (currentValue progress : Option JsVal) : Resp × List Goal :=
  if method == "OPTIONS" then
    wrapped db { method := method, id := id, userId := "",
                 currentValue := currentValue, progress := progress }
  else
    match auth with
    | .valid uid =>
      wrapped db { method := method, id := id, userId := uid,
                   currentValue := currentValue, progress := progress }
    | _ => ({ status := 401, headers := [], body := .errorMsg "Unauthorized" }, db)

/-- The full endpoint: the handler wrapped in the auth middleware. -/
def endpoint (recalc : Goal → Int) (db : List Goal) (auth : AuthState)
    (method id : String) (currentValue progress : Option JsVal) :
    Resp × List Goal :=
  verifyToken (handler recalc) db auth method id currentValue progress

/-- A block category (the TS union type on ScheduleBlock.category). -/
inductive Category where
  | physical | mental | financial | social | personal
  deriving DecidableEq, Repr

/-- A schedule block as held in the screen state (interface ScheduleBlock). -/
structure ScheduleBlock where
  id : String
  title : String
  category : Category
  startTime : String
  endTime : String
  completed : Bool
  goalId : Option String
  deriving DecidableEq, Repr

/-- The add-task form state (the newTask useState object). -/
structure NewTask where
  title : String
  category : Category
  startTime : String
  endTime : String
  deriving DecidableEq, Repr

/-- The initial / reset value of the add-task form. -/
def initialNewTask : NewTask :=
  { title := "", category := .personal, startTime := "09:00", endTime := "10:00" }

/-- The schedule screen state: whether a user is logged in, the selected
date (already formatted for the API; the external formatter is opaque), the
block list, the remembered schedule id, the loading/refreshing flags, the
add-task modal visibility and form. -/
structure ScreenState where
  user : Bool
  dateStr : String
  schedule : List ScheduleBlock
  scheduleId : String
  loading : Bool
  refreshing : Bool
  showAddModal : Bool
  newTask : NewTask
  deriving DecidableEq, Repr

/-- A network request issued through scheduleService. -/
inductive NetRequest where
  | getSchedule (date : String)
  | updateSchedule (date : String) (blocks : List ScheduleBlock)
  | updateScheduleBlock (scheduleId blockId : String) (completed : Bool)
  | deleteScheduleBlock (scheduleId blockId : String)
  deriving DecidableEq, Repr

/-- The response of scheduleService.getSchedule: a document whose _id and
blocks may be absent (the screen guards both with || defaults). -/
structure FetchedSchedule where
  _id : Option String
  blocks : Option (List ScheduleBlock)
  deriving DecidableEq, Repr

/-- The response of scheduleService.updateSchedule: the authoritative
schedule document, with its id and full block list. -/
structure UpdatedSchedule where
  _id : String
  blocks : List ScheduleBlock
  deriving DecidableEq, Repr

/-- The observable outcome of one client action: the new screen state, the
network request issued (none if no request left the client), and the alerts
shown, as (title, message) pairs. -/
structure ActionOutcome where
  state : ScreenState
  issued : Option NetRequest
  alerts : List (String × String)
  deriving DecidableEq, Repr

/-- fetchSchedule: bails out if no user is logged in; otherwise requests the
schedule for the selected date; on success replaces the block list
(data.blocks or []) and the schedule id (data._id or the empty string); on
failure shows a Failed-to-load alert and keeps the prior list and id; in
both cases the finally block clears loading and refreshing. The result
argument is the outcome of the awaited service call. -/
def fetchSchedule (st : ScreenState)
    (result : Except Unit FetchedSchedule) : ActionOutcome :=
  if !st.user then
    { state := st, issued := none, alerts := [] }
  else
    match result with
    | .ok data =>
      { state := { st with
          schedule := data.blocks.getD []
          scheduleId := data._id.getD ""
          loading := false
          refreshing := false }
        issued := some (.getSchedule st.dateStr)
        alerts := [] }
    | .error _ =>
      { state := { st with loading := false, refreshing := false }
        issued := some (.getSchedule st.dateStr)
        alerts := [("Error", "Failed to load schedule")] }

/-- JS String.prototype.trim as used by the title check: strips leading and
trailing whitespace characters. (Defined by structural recursion over the
character list so that concrete instances evaluate.) -/
def jsTrim (s : String) : String :=
  ⟨((s.data.dropWhile Char.isWhitespace).reverse.dropWhile
      Char.isWhitespace).reverse⟩

/-- addTask: if the trimmed form title is empty, shows a validation alert
and returns without contacting the network; otherwise builds a new block
from the form (with a caller-generated id from the external
scheduleService.generateBlockId, passed as genId), sends the whole extended
list for the selected date, and on success replaces the list and schedule
id from the response, closes the modal and resets the form; on failure
shows a Failed-to-add alert and leaves state unchanged. -/
def addTask (st : ScreenState) (genId : String)
    (result : Except Unit UpdatedSchedule) : ActionOutcome :=
  if jsTrim st.newTask.title == "" then
    { state := st, issued := none,
      alerts := [("Error", "Please enter a task title")] }
  else
    let newBlock : ScheduleBlock :=
      { id := genId, title := st.newTask.title, category := st.newTask.category,
        startTime := st.newTask.startTime, endTime := st.newTask.endTime,
        completed := false, goalId := none }
    let req := NetRequest.updateSchedule st.dateStr (st.schedule ++ [newBlock])
    match result with
    | .ok updated =>
      { state := { st with
          schedule := updated.blocks
          scheduleId := updated._id
          showAddModal := false
          newTask := initialNewTask }
        issued := some req
        alerts := [] }
    | .error _ =>
      { state := st, issued := some req,
        alerts := [("Error", "Failed to add task")] }

/-! Concrete fixtures used to instantiate the theorems below. -/

/-- A trivial concrete progress recalculation, standing in for the external
save hook in concrete instantiations. -/
def zeroRecalc : Goal → Int := fun _ => 0

/-- A PUT request to the progress endpoint. -/
def putReq (id uid : String) (currentValue progress : Option JsVal) : Req :=
  { method := "PUT", id := id, userId := uid,
    currentValue := currentValue, progress := progress }

/-- A milestone goal owned by user u1 with progress 50. -/
def gMile : Goal :=
  { _id := "g1", userId := "u1", type := "milestone",
    currentValue := .jnum 1, progress := 50 }

/-- A numeric goal owned by user u1. -/
def gNum : Goal :=
  { _id := "g2", userId := "u1", type := "numeric",
    currentValue := .jnum 3, progress := 30 }

/-- A habit goal owned by user u1. -/
def gHab : Goal :=
  { _id := "g3", userId := "u1", type := "habit",
    currentValue := .jnum 2, progress := 10 }

/-- A goal of an unrecognised type. -/
def gOther : Goal :=
  { _id := "g4", userId := "u1", type := "other",
    currentValue := .jnum 4, progress := 40 }

/-- A goal with the same id as gMile but owned by a different user u2. -/
def gForeign : Goal :=
  { _id := "g1", userId := "u2", type := "milestone",
    currentValue := .jnum 1, progress := 50 }

/-- A concrete schedule block. -/
def sampleBlock : ScheduleBlock :=
  { id := "b1", title := "Run", category := .physical, startTime := "07:00",
    endTime := "08:00", completed := false, goalId := none }

/-- A concrete screen state with a logged-in user and one block. -/
def sampleState : ScreenState :=
  { user := true, dateStr := "2026-10-11", schedule := [sampleBlock],
    scheduleId := "s1", loading := true, refreshing := false,
    showAddModal := true,
    newTask := { title := "Read", category := .mental,
                 startTime := "09:00", endTime := "10:00" } }

/-- The concrete screen state with a whitespace-only task title. -/
def emptyTitleState : ScreenState :=
  { sampleState with
    newTask := { sampleState.newTask with title := "  " } }

/-- A concrete getSchedule response. -/
def sampleFetched : FetchedSchedule :=
  { _id := some "s2", blocks := some [sampleBlock] }

/-- Persisting a saved document never changes the currentValue the handler
wrote: the save hook touches only progress. -/
theorem saveRecalc_currentValue (recalc : Goal → Int) (g : Goal) :
    (saveRecalc recalc g).currentValue = g.currentValue := by
  unfold saveRecalc
  split <;> rfl

/-- C1: for a goal of type milestone found by an owned PUT request carrying
a numeric progress p, the handler stores and returns the goal with progress
Math.min(Math.max(p, 0), 100), i.e. p clamped to [0,100]. -/
theorem milestone_progress_clamped (recalc : Goal → Int) (db : List Goal)
    (req : Req) (goal : Goal) (p : Int)
    (hm : req.method = "PUT")
    (hfind : findOne db req.id req.userId = some goal)
    (ht : goal.type = "milestone")
    (hp : req.progress = some (.jnum p)) :
    handler recalc db req =
      (mkSuccess { goal with progress := clampProgress p },
       persist db { goal with progress := clampProgress p }) ∧
    ({ goal with progress := clampProgress p } : Goal).progress =
      min (max p 0) 100 := by
  have hupd : updateGoalFields goal req.currentValue req.progress =
      { goal with progress := clampProgress p } := by
    simp [updateGoalFields, ht, hp, JsVal.toNum]
  have hsave : saveRecalc recalc { goal with progress := clampProgress p } =
      { goal with progress := clampProgress p } := by
    simp [saveRecalc, ht]
  constructor
  · simp [handler, hm, hfind, hupd, hsave]
  · rfl

/-- C1 witness: on the concrete milestone goal with progress 50, submitting
progress 150 stores exactly 100 and submitting progress -20 stores
exactly 0. -/
theorem milestone_progress_clamped_witness :
    (handler zeroRecalc [gMile] (putReq "g1" "u1" none (some (.jnum 150)))).2 =
      [{ gMile with progress := 100 }] ∧
    (handler zeroRecalc [gMile] (putReq "g1" "u1" none (some (.jnum (-20))))).2 =
      [{ gMile with progress := 0 }] := by
  constructor
  · have h := milestone_progress_clamped zeroRecalc [gMile]
      (putReq "g1" "u1" none (some (.jnum 150))) gMile 150
      (by decide) (by decide) (by decide) (by decide)
    rw [h.1]
    decide
  · have h := milestone_progress_clamped zeroRecalc [gMile]
      (putReq "g1" "u1" none (some (.jnum (-20)))) gMile (-20)
      (by decide) (by decide) (by decide) (by decide)
    rw [h.1]
    decide

/-- C2: a PUT request whose path id does not identify a goal owned by the
authenticated user — whether the id belongs to a goal of another user or to
no goal at all — produces exactly the 404 response with body
error = Goal not found, and leaves the database untouched. The response is
a fixed constant, so the two cases are indistinguishable from the response
alone. -/
theorem not_found_indistinguishable (recalc : Goal → Int) (db : List Goal)
    (req : Req)
    (hm : req.method = "PUT")
    (hown : ∀ g ∈ db, g._id = req.id → g.userId ≠ req.userId) :
    handler recalc db req =
      ({ status := 404, headers := corsHeaders,
         body := .errorMsg "Goal not found" }, db) := by
  have hfind : findOne db req.id req.userId = none := by
    rw [findOne, List.find?_eq_none]
    intro g hg
    simp only [Bool.and_eq_true, beq_iff_eq, not_and]
    exact hown g hg
  simp [handler, hm, hfind]

/-- C2 witness: a request by user u1 for id g1 gets the identical 404
response whether g1 is owned by the different user u2 or does not exist at
all. -/
theorem not_found_indistinguishable_witness :
    handler zeroRecalc [gForeign] (putReq "g1" "u1" none none) =
      ({ status := 404, headers := corsHeaders,
         body := .errorMsg "Goal not found" }, [gForeign]) ∧
    handler zeroRecalc [] (putReq "g1" "u1" none none) =
      ({ status := 404, headers := corsHeaders,
         body := .errorMsg "Goal not found" }, []) :=
  ⟨not_found_indistinguishable zeroRecalc [gForeign]
      (putReq "g1" "u1" none none) (by decide) (by decide),
   not_found_indistinguishable zeroRecalc []
      (putReq "g1" "u1" none none) (by decide) (by decide)⟩

/-- C3: for an owned goal of type numeric or habit, a PUT supplying a
currentValue saves the goal with that currentValue overwritten (progress
being left to the external save-time recalculation), and a PUT omitting
currentValue saves the goal with its prior currentValue unchanged. -/
theorem currentValue_update (recalc : Goal → Int) (db : List Goal)
    (req : Req) (goal : Goal)
    (hm : req.method = "PUT")
    (hfind : findOne db req.id req.userId = some goal)
    (ht : goal.type = "numeric" ∨ goal.type = "habit") :
    (∀ v, req.currentValue = some v →
      handler recalc db req =
        (mkSuccess (saveRecalc recalc { goal with currentValue := v }),
         persist db (saveRecalc recalc { goal with currentValue := v })) ∧
      (saveRecalc recalc { goal with currentValue := v }).currentValue = v) ∧
    (req.currentValue = none →
      handler recalc db req =
        (mkSuccess (saveRecalc recalc goal),
         persist db (saveRecalc recalc goal)) ∧
      (saveRecalc recalc goal).currentValue = goal.currentValue) := by
  constructor
  · intro v hv
    have hupd : updateGoalFields goal req.currentValue req.progress =
        { goal with currentValue := v } := by
      rcases ht with ht | ht <;> simp [updateGoalFields, ht, hv]
    refine ⟨by simp [handler, hm, hfind, hupd], ?_⟩
    exact saveRecalc_currentValue recalc _
  · intro hv
    have hupd : updateGoalFields goal req.currentValue req.progress = goal := by
      rcases ht with ht | ht <;> simp [updateGoalFields, ht, hv]
    refine ⟨by simp [handler, hm, hfind, hupd], ?_⟩
    exact saveRecalc_currentValue recalc _

/-- C3 witness: on the concrete numeric goal, supplying currentValue 42
stores currentValue 42, and omitting it leaves currentValue at its prior
value 3. -/
theorem currentValue_update_witness :
    (handler zeroRecalc [gNum] (putReq "g2" "u1" (some (.jnum 42)) none) =
      (mkSuccess (saveRecalc zeroRecalc { gNum with currentValue := .jnum 42 }),
       persist [gNum] (saveRecalc zeroRecalc { gNum with currentValue := .jnum 42 })) ∧
     (saveRecalc zeroRecalc { gNum with currentValue := .jnum 42 }).currentValue =
       .jnum 42) ∧
    (handler zeroRecalc [gNum] (putReq "g2" "u1" none none) =
      (mkSuccess (saveRecalc zeroRecalc gNum),
       persist [gNum] (saveRecalc zeroRecalc gNum)) ∧
     (saveRecalc zeroRecalc gNum).currentValue = gNum.currentValue) :=
  ⟨(currentValue_update zeroRecalc [gNum]
      (putReq "g2" "u1" (some (.jnum 42)) none) gNum
      (by decide) (by decide) (Or.inl (by decide))).1 (.jnum 42) rfl,
   (currentValue_update zeroRecalc [gNum]
      (putReq "g2" "u1" none none) gNum
      (by decide) (by decide) (Or.inl (by decide))).2 rfl⟩

/-- C4 counterexample: OPTIONS is a method other than PUT, yet the handler
answers it with an empty 200, not with 405 Method not allowed. -/
theorem non_put_405_counterexample :
    ("OPTIONS" : String) ≠ "PUT" ∧
    (handler zeroRecalc []
      { method := "OPTIONS", id := "g1", userId := "u1",
        currentValue := none, progress := none }).1.status = 200 ∧
    (handler zeroRecalc []
      { method := "OPTIONS", id := "g1", userId := "u1",
        currentValue := none, progress := none }).1.status ≠ 405 := by
  decide

/-- C4 amended: every request whose method is neither PUT nor OPTIONS
returns 405 with body error = Method not allowed, regardless of the body
content (OPTIONS instead short-circuits with an empty 200). -/
theorem non_put_non_options_405 (recalc : Goal → Int) (db : List Goal)
    (req : Req)
    (hm : req.method ≠ "PUT") (ho : req.method ≠ "OPTIONS") :
    handler recalc db req =
      ({ status := 405, headers := corsHeaders,
         body := .errorMsg "Method not allowed" }, db) := by
  simp [handler, hm, ho]

/-- C4 witness: a GET request carrying arbitrary body fields gets the 405
response. -/
theorem non_put_non_options_405_witness :
    handler zeroRecalc [gMile]
      { method := "GET", id := "g1", userId := "u1",
        currentValue := some (.jnum 7), progress := some (.jnum 9) } =
      ({ status := 405, headers := corsHeaders,
         body := .errorMsg "Method not allowed" }, [gMile]) :=
  non_put_non_options_405 zeroRecalc [gMile] _ (by decide) (by decide)

/-- C5: an OPTIONS request to the wrapped endpoint returns an empty 200
with the permissive CORS headers, for every authentication state (valid
token, invalid token, or no token). -/
theorem options_empty_200 (recalc : Goal → Int) (db : List Goal)
    (auth : AuthState) (id : String) (currentValue progress : Option JsVal) :
    endpoint recalc db auth "OPTIONS" id currentValue progress =
      ({ status := 200, headers := corsHeaders, body := .empty }, db) := by
  simp [endpoint, verifyToken, handler]

/-- C6 counterexample: a supplied but invalid relevant field is not
ignored. On the milestone goal with progress 50, a PUT carrying
progress = null passes the undefined check, null coerces to 0 inside
Math.max, and the stored progress becomes 0: an update is applied. -/
theorem invalid_field_applied_counterexample :
    (handler zeroRecalc [gMile] (putReq "g1" "u1" none (some .jnull))).2 ≠
      [gMile] ∧
    (handler zeroRecalc [gMile] (putReq "g1" "u1" none (some .jnull))).2 =
      [{ gMile with progress := 0 }] ∧
    gMile.progress = 50 := by
  decide

/-- C6 amended: for a PUT on an existing owned goal in which the body field
relevant to the type of the goal is absent (undefined) — currentValue for
numeric/habit, progress for milestone — the omission is silently ignored:
the handler applies no field update and the request still completes with
the 200 success response, including when the request carries no body at
all; a field that is supplied with an invalid value such as null is instead
coerced and applied. -/
theorem missing_fields_ignored (recalc : Goal → Int) (db : List Goal)
    (req : Req) (goal : Goal)
    (hm : req.method = "PUT")
    (hfind : findOne db req.id req.userId = some goal)
    (hcv : (goal.type = "numeric" ∨ goal.type = "habit") →
      req.currentValue = none)
    (hp : goal.type = "milestone" → req.progress = none) :
    updateGoalFields goal req.currentValue req.progress = goal ∧
    handler recalc db req =
      (mkSuccess (saveRecalc recalc goal),
       persist db (saveRecalc recalc goal)) ∧
    (handler recalc db req).1.status = 200 := by
  have hupd : updateGoalFields goal req.currentValue req.progress = goal := by
    by_cases h1 : goal.type = "numeric"
    · simp [updateGoalFields, h1, hcv (Or.inl h1)]
    · by_cases h2 : goal.type = "habit"
      · simp [updateGoalFields, h2, hcv (Or.inr h2)]
      · by_cases h3 : goal.type = "milestone"
        · simp [updateGoalFields, h1, h2, h3, hp h3]
        · simp [updateGoalFields, h1, h2, h3]
  refine ⟨hupd, by simp [handler, hm, hfind, hupd], ?_⟩
  simp [handler, hm, hfind, hupd, mkSuccess]

/-- C6 witness: a bodyless PUT (both fields undefined) on the concrete
milestone goal applies no update and completes with status 200. -/
theorem missing_fields_ignored_witness :
    updateGoalFields gMile none none = gMile ∧
    handler zeroRecalc [gMile] (putReq "g1" "u1" none none) =
      (mkSuccess (saveRecalc zeroRecalc gMile),
       persist [gMile] (saveRecalc zeroRecalc gMile)) ∧
    (handler zeroRecalc [gMile] (putReq "g1" "u1" none none)).1.status = 200 :=
  missing_fields_ignored zeroRecalc [gMile] (putReq "g1" "u1" none none) gMile
    (by decide) (by decide) (fun _ => rfl) (fun _ => rfl)

/-- C7: the per-type update writes only the one field selected by the goal
type: for numeric/habit goals the progress, id, owner and type fields are
untouched (a supplied body progress is ignored), and for milestone goals
the currentValue, id, owner and type fields are untouched (a supplied body
currentValue is ignored). -/
theorem type_dispatch_frame (goal : Goal) (cv pv : Option JsVal) :
    ((goal.type = "numeric" ∨ goal.type = "habit") →
      (updateGoalFields goal cv pv).progress = goal.progress ∧
      (updateGoalFields goal cv pv)._id = goal._id ∧
      (updateGoalFields goal cv pv).userId = goal.userId ∧
      (updateGoalFields goal cv pv).type = goal.type) ∧
    (goal.type = "milestone" →
      (updateGoalFields goal cv pv).currentValue = goal.currentValue ∧
      (updateGoalFields goal cv pv)._id = goal._id ∧
      (updateGoalFields goal cv pv).userId = goal.userId ∧
      (updateGoalFields goal cv pv).type = goal.type) := by
  constructor
  · rintro (h | h) <;> cases cv <;> simp [updateGoalFields, h]
  · intro h
    cases pv <;> simp [updateGoalFields, h]

/-- C7 witness: with both body fields supplied, the numeric goal keeps its
progress, id, owner and type, and the milestone goal keeps its
currentValue, id, owner and type. -/
theorem type_dispatch_frame_witness :
    ((updateGoalFields gNum (some (.jnum 7)) (some (.jnum 9))).progress =
       gNum.progress ∧
     (updateGoalFields gNum (some (.jnum 7)) (some (.jnum 9)))._id = gNum._id ∧
     (updateGoalFields gNum (some (.jnum 7)) (some (.jnum 9))).userId =
       gNum.userId ∧
     (updateGoalFields gNum (some (.jnum 7)) (some (.jnum 9))).type =
       gNum.type) ∧
    ((updateGoalFields gMile (some (.jnum 7)) (some (.jnum 9))).currentValue =
       gMile.currentValue ∧
     (updateGoalFields gMile (some (.jnum 7)) (some (.jnum 9)))._id =
       gMile._id ∧
     (updateGoalFields gMile (some (.jnum 7)) (some (.jnum 9))).userId =
       gMile.userId ∧
     (updateGoalFields gMile (some (.jnum 7)) (some (.jnum 9))).type =
       gMile.type) :=
  ⟨(type_dispatch_frame gNum (some (.jnum 7)) (some (.jnum 9))).1
      (Or.inl (by decide)),
   (type_dispatch_frame gMile (some (.jnum 7)) (some (.jnum 9))).2
      (by decide)⟩

/-- C8: when the trimmed task title is empty, addTask issues no network
request, shows the validation alert, and leaves the whole screen state —
block list, schedule id and form included — unchanged. -/
theorem addTask_empty_title (st : ScreenState) (genId : String)
    (result : Except Unit UpdatedSchedule)
    (h : jsTrim st.newTask.title = "") :
    addTask st genId result =
      { state := st, issued := none,
        alerts := [("Error", "Please enter a task title")] } := by
  simp [addTask, h]

/-- C8 witness: on the concrete state whose form title is whitespace only,
addTask returns the unchanged state, no request, and the validation
alert. -/
theorem addTask_empty_title_witness :
    addTask emptyTitleState "b2" (Except.error ()) =
      { state := emptyTitleState, issued := none,
        alerts := [("Error", "Please enter a task title")] } :=
  addTask_empty_title emptyTitleState "b2" (Except.error ()) (by decide)

/-- C9: with a user logged in, a successful fetch replaces the block list
with the blocks of the response (or []) and records the response id (or the
empty string), while a failed fetch shows the non-fatal alert and keeps the
prior block list and schedule id; in both cases the loading and refreshing
flags are cleared. -/
theorem fetchSchedule_spec (st : ScreenState) (hu : st.user = true) :
    (∀ data : FetchedSchedule,
      fetchSchedule st (Except.ok data) =
        { state := { st with
            schedule := data.blocks.getD []
            scheduleId := data._id.getD ""
            loading := false
            refreshing := false }
          issued := some (.getSchedule st.dateStr)
          alerts := [] }) ∧
    (fetchSchedule st (Except.error ()) =
        { state := { st with loading := false, refreshing := false }
          issued := some (.getSchedule st.dateStr)
          alerts := [("Error", "Failed to load schedule")] } ∧
      (fetchSchedule st (Except.error ())).state.schedule = st.schedule ∧
      (fetchSchedule st (Except.error ())).state.scheduleId = st.scheduleId) := by
  refine ⟨fun data => ?_, ?_, ?_, ?_⟩ <;> simp [fetchSchedule, hu]

/-- C9 witness: on the concrete state, the successful fetch stores the
fetched blocks and id, and the failed fetch keeps the prior block list. -/
theorem fetchSchedule_spec_witness :
    fetchSchedule sampleState (Except.ok sampleFetched) =
      { state := { sampleState with
          schedule := sampleFetched.blocks.getD []
          scheduleId := sampleFetched._id.getD ""
          loading := false
          refreshing := false }
        issued := some (.getSchedule sampleState.dateStr)
        alerts := [] } ∧
    (fetchSchedule sampleState (Except.error ())).state.schedule =
      sampleState.schedule :=
  ⟨(fetchSchedule_spec sampleState rfl).1 sampleFetched,
   (fetchSchedule_spec sampleState rfl).2.2.1⟩

/-- C10: for a PUT on an existing owned goal whose type is none of numeric,
habit or milestone, no field is updated, the save hook leaves it untouched,
and the handler still persists the document and returns the 200 success
response with the unmodified goal. -/
theorem unknown_type_no_update (recalc : Goal → Int) (db : List Goal)
    (req : Req) (goal : Goal)
    (hm : req.method = "PUT")
    (hfind : findOne db req.id req.userId = some goal)
    (h1 : goal.type ≠ "numeric") (h2 : goal.type ≠ "habit")
    (h3 : goal.type ≠ "milestone") :
    updateGoalFields goal req.currentValue req.progress = goal ∧
    saveRecalc recalc goal = goal ∧
    handler recalc db req = (mkSuccess goal, persist db goal) := by
  have hupd : updateGoalFields goal req.currentValue req.progress = goal := by
    simp [updateGoalFields, h1, h2, h3]
  have hsave : saveRecalc recalc goal = goal := by
    simp [saveRecalc, h1, h2]
  exact ⟨hupd, hsave, by simp [handler, hm, hfind, hupd, hsave]⟩

/-- C10 witness: on the concrete goal of type other, with both body fields
supplied, nothing is updated and the handler returns 200 with the
unmodified goal. -/
theorem unknown_type_no_update_witness :
    updateGoalFields gOther (some (.jnum 7)) (some (.jnum 9)) = gOther ∧
    saveRecalc zeroRecalc gOther = gOther ∧
    handler zeroRecalc [gOther]
        (putReq "g4" "u1" (some (.jnum 7)) (some (.jnum 9))) =
      (mkSuccess gOther, persist [gOther] gOther) :=
  unknown_type_no_update zeroRecalc [gOther]
    (putReq "g4" "u1" (some (.jnum 7)) (some (.jnum 9))) gOther
    (by decide) (by decide) (by decide) (by decide) (by decide)

end LifeImprove
